import Mathlib

/-!
Verification of the cross-destination publishing orchestrator in
src/routes/posting.js: the four destination adapters (Twitter, Facebook,
Instagram, LinkedIn), the Cloudinary media-normalization helper, the error
classification performed in each adapter catch block, and the /multi
fan-out route.  Network calls are modelled by explicit oracles (environment
records); each adapter becomes a pure function from its input and oracle to
its outcome, together with a trace of the remote calls it performs.
-/

namespace Posting

/-! ### String utilities

Character-list models of the JavaScript string operations the source uses:
String.prototype.startsWith, the case-insensitive substring regular
expression tests, and the video-extension regular expression. -/

/-- True when the second list is an initial segment of the first.  Models
JavaScript String.prototype.startsWith on the underlying characters. -/
def beginsWith : List Char → List Char → Bool
  | _, [] => true
  | [], _ :: _ => false
  | c :: cs, d :: ds => c = d && beginsWith cs ds

/-- True when the second list occurs contiguously inside the first. -/
def hasSubstring : List Char → List Char → Bool
  | [], needle => needle.isEmpty
  | c :: cs, needle => beginsWith (c :: cs) needle || hasSubstring cs needle

/-- True when the second list is a final segment of the first. -/
def listEndsWith (l suffix : List Char) : Bool :=
  beginsWith l.reverse suffix.reverse

/-- ASCII lower casing of one character, as the case-insensitive regular
expression flag i behaves on the ASCII input the source deals with. -/
def asciiLower (c : Char) : Char :=
  if 'A' ≤ c ∧ c ≤ 'Z' then Char.ofNat (c.toNat + 32) else c

/-- Model of JavaScript String.prototype.startsWith. -/
def strStartsWith (s p : String) : Bool :=
  beginsWith s.toList p.toList

/-- Substring test on strings (case sensitive). -/
def containsSub (hay needle : String) : Bool :=
  hasSubstring hay.toList needle.toList

/-- Model of the case-insensitive test /rate limit/i.test(message) used by
the Twitter and Facebook catch blocks. -/
def containsRateLimit (s : String) : Bool :=
  hasSubstring (s.toList.map asciiLower) ("rate limit".toList)

/-- The video file extensions of the regular expression
/\.(mp4|mov|avi|wmv|flv|webm|m4v)(\?|$)/i used throughout posting.js. -/
def videoExts : List String := ["mp4", "mov", "avi", "wmv", "flv", "webm", "m4v"]

/-- Model of the isVideoUrl regular expression test: a dot followed by a
video extension, followed by a question mark or the end of the URL,
case-insensitively. -/
def isVideoUrl (url : String) : Bool :=
  let l := url.toList.map asciiLower
  videoExts.any fun ext =>
    let e := ("." ++ ext).toList
    listEndsWith l e || hasSubstring l (e ++ ['?'])

/-! ### Raw upstream errors and the per-adapter catch-block classifiers -/

/-- The fields of an axios error response object that the catch blocks in
posting.js read: the HTTP status, the retry-after header, and the various
nested provider error message fields (response.data.error,
response.data.message, response.data.error.message,
response.data.error.error_user_msg). -/
structure RespInfo where
  status : Option Nat
  retryAfter : Option String
  dataError : Option String
  dataMessage : Option String
  dataErrorMessage : Option String
  dataErrorUserMsg : Option String
deriving DecidableEq, Repr

/-- A raw thrown error as the catch blocks see it: an optional attached
HTTP response, plus the status, retryAfter and message fields an Error
object built by the httpError helper carries.  A missing or empty message
is modelled as none. -/
structure RawErr where
  response : Option RespInfo
  status : Option Nat
  retryAfter : Option String
  message : Option String
deriving DecidableEq, Repr

/-- An error thrown with new Error(m) and no attached response, as the
internal validation and invalid-shape throws of posting.js produce. -/
def plainErr (m : String) : RawErr :=
  { response := none, status := none, retryAfter := none, message := some m }

/-- The classified error each adapter rethrows from its catch block via
httpError: a message, an HTTP status, and the optional retry-after hint. -/
structure Classified where
  message : String
  status : Nat
  retryAfter : Option String
deriving DecidableEq, Repr

instance {ε α : Type} [DecidableEq ε] [DecidableEq α] : DecidableEq (Except ε α) :=
  fun x y =>
    match x, y with
    | .ok a, .ok b =>
      if h : a = b then .isTrue (by rw [h]) else .isFalse (by intro he; cases he; exact h rfl)
    | .error a, .error b =>
      if h : a = b then .isTrue (by rw [h]) else .isFalse (by intro he; cases he; exact h rfl)
    | .ok _, .error _ => .isFalse (by intro he; cases he)
    | .error _, .ok _ => .isFalse (by intro he; cases he)

/-- The Twitter catch block (posting.js lines 574 to 584): status is
e.response.status, else e.status, else 500; retryAfter is the response
retry-after header, else e.retryAfter; the message prefers
e.response.data.error, then e.message; a 429 whose message does not already
mention the rate limit is replaced by a fixed phrasing. -/
def twitterErrMsg (e : RawErr) : String :=
  match e.response.bind RespInfo.dataError with
  | some m => m
  | none =>
    match e.message with
    | some m => m
    | none => "Failed to post to Twitter"

/-- The Twitter catch block, continued: assembling message, status and
retry-after exactly as lines 574 to 583 do. -/
def classifyTwitter (e : RawErr) : Classified :=
  let status := ((e.response.bind RespInfo.status).orElse fun _ => e.status).getD 500
  let retryAfter := (e.response.bind RespInfo.retryAfter).orElse fun _ => e.retryAfter
  let msg0 := twitterErrMsg e
  let msg :=
    if status = 429 ∧ containsRateLimit msg0 = false then
      "Twitter rate limit exceeded. Please try again later."
    else msg0
  { message := msg, status := status, retryAfter := retryAfter }

/-- The Facebook catch block (posting.js lines 775 to 785): like Twitter
but the nested provider message is e.response.data.error.message. -/
def classifyFacebook (e : RawErr) : Classified :=
  let status := ((e.response.bind RespInfo.status).orElse fun _ => e.status).getD 500
  let retryAfter := (e.response.bind RespInfo.retryAfter).orElse fun _ => e.retryAfter
  let msg0 :=
    match e.response.bind RespInfo.dataErrorMessage with
    | some m => m
    | none =>
      match e.message with
      | some m => m
      | none => "Failed to post to Facebook"
  let msg :=
    if status = 429 ∧ containsRateLimit msg0 = false then
      "Facebook rate limit exceeded. Please try again later."
    else msg0
  { message := msg, status := status, retryAfter := retryAfter }

/-- The LinkedIn post catch block (posting.js lines 425 to 447): the
message prefers response.data.message, then response.data.error, then
e.message; statuses 401, 403 and 429 replace the message with fixed
phrasings; the rethrown status is e.response.status else 500, and the
retry-after hint comes from the response headers only. -/
def classifyLinkedIn (e : RawErr) : Classified :=
  let base :=
    match e.response.bind RespInfo.dataMessage with
    | some m => m
    | none =>
      match e.response.bind RespInfo.dataError with
      | some m => m
      | none =>
        match e.message with
        | some m => m
        | none => "Failed to post to LinkedIn"
  let status? := e.response.bind RespInfo.status
  let msg :=
    if status? = some 401 then
      "LinkedIn authentication failed. Please reconnect your account."
    else if status? = some 403 then
      "Permission denied. Check your LinkedIn app permissions for posting."
    else if status? = some 429 then
      "LinkedIn rate limit exceeded. Please try again later."
    else base
  { message := msg, status := status?.getD 500,
    retryAfter := e.response.bind RespInfo.retryAfter }

/-- The Instagram catch block (posting.js lines 1052 to 1077): the message
prefers response.data.error.message, then response.data.error.error_user_msg,
then fixed phrasings for statuses 400, 403 and 429, then e.message. -/
def classifyInstagram (e : RawErr) : Classified :=
  let status? := e.response.bind RespInfo.status
  let msg :=
    match e.response.bind RespInfo.dataErrorMessage with
    | some m => m
    | none =>
      match e.response.bind RespInfo.dataErrorUserMsg with
      | some m => m
      | none =>
        if status? = some 400 then
          "Bad request. Check that media files are valid and accessible, and Instagram account is properly connected."
        else if status? = some 403 then
          "Permission denied. Ensure Instagram account has posting permissions and is a Business/Creator account."
        else if status? = some 429 then
          "Instagram rate limit exceeded. Please try again later."
        else (e.message).getD "Failed to post to Instagram"
  { message := msg, status := status?.getD 500,
    retryAfter := e.response.bind RespInfo.retryAfter }

/-- The error response a single-platform route sends from its catch block
(e.g. posting.js lines 1275 to 1280): the HTTP status and error message of
the classified error rethrown by the adapter via httpError, plus a
Retry-After response header set exactly when that error carries a
retryAfter field. -/
structure RouteErrResponse where
  status : Nat
  errorBody : String
  retryAfterHeader : Option String
deriving DecidableEq, Repr

/-- Builds the route error response from the classified error the adapter
rethrew: status is err.status (the classifier already defaulted it to
500), the body carries err.message, and the Retry-After header echoes
err.retryAfter when present. -/
def routeErrorResponse (c : Classified) : RouteErrResponse :=
  { status := c.status, errorBody := c.message, retryAfterHeader := c.retryAfter }

/-! ### Twitter adapter (postToTwitter, posting.js lines 500 to 585)

The media-selection phase runs three loops.  The image-file loop condition
re-evaluates Math.min(imageFiles.length, maxMedia - processedCount) on each
iteration, with processedCount growing on every successful upload.  The
video loop runs at most once and only when processedCount is still zero.
The URL loop bound remainingSlots = 4 - processedCount is computed once;
a video URL is skipped when mediaIds is already non-empty and ends the
loop when uploaded.  Per-item upload failures are caught and skipped. -/

/-- One entry of the mediaIds array, tagged with the kind of upload that
produced it (the tag is bookkeeping for the statements; the tweet payload
carries only the id strings). -/
structure MediaRef where
  id : String
  isVideo : Bool
deriving DecidableEq, Repr

/-- Outcome of the axios call to the tweet endpoint: response.data.data
present with an id, a 2xx response without data.data, or a thrown error. -/
inductive TweetResult where
  | ok (tweetId : String)
  | noData
  | threw (e : RawErr)
deriving DecidableEq, Repr

/-- Oracles for the remote calls postToTwitter makes: per-index media
uploads (none models a thrown upload, which the source catches and skips)
and the final tweet call on the accumulated media id list. -/
structure TwitterEnv where
  imgUpload : Nat → Option String
  vidUpload : Nat → Option String
  urlUpload : Nat → Option String
  tweet : List String → TweetResult

/-- The image-file loop: for (i = 0; i < min(len, 4 - processedCount); i++)
with processedCount incremented on each successful upload and failures
skipped.  The fuel argument starts at len; the loop runs fewer than len
iterations, so the fuel never runs out while the condition holds. -/
def twImageLoop (upl : Nat → Option String) (len : Nat) :
    Nat → Nat → Nat → List MediaRef → List MediaRef × Nat
  | 0, _, p, acc => (acc, p)
  | fuel + 1, i, p, acc =>
    if i < min len (4 - p) then
      match upl i with
      | some mid => twImageLoop upl len fuel (i + 1) (p + 1) (acc ++ [⟨mid, false⟩])
      | none => twImageLoop upl len fuel (i + 1) p acc
    else (acc, p)

/-- The video-file loop: iterates i < min(videoFiles.length, 1), uploads
only when processedCount is still 0, and breaks after one success.  It
therefore amounts to a single conditional step. -/
def twVideoStep (upl : Nat → Option String) (vidLen : Nat)
    (st : List MediaRef × Nat) : List MediaRef × Nat :=
  if 0 < min vidLen 1 ∧ st.2 = 0 then
    match upl 0 with
    | some mid => (st.1 ++ [⟨mid, true⟩], st.2 + 1)
    | none => (st.1, st.2)
  else (st.1, st.2)

/-- The URL loop: bound = min(mediaUrls.length, remainingSlots) fixed up
front; a video URL is skipped (continue) when mediaIds is non-empty,
ends the loop (break) when uploaded; failures are skipped. -/
def twUrlLoop (upl : Nat → Option String) (urls : List String) (bound : Nat) :
    Nat → Nat → List MediaRef → List MediaRef
  | 0, _, acc => acc
  | fuel + 1, i, acc =>
    if i < min urls.length bound then
      let isVid := isVideoUrl (urls.getD i "")
      if isVid ∧ 0 < acc.length then
        twUrlLoop upl urls bound fuel (i + 1) acc
      else
        match upl i with
        | some mid =>
          if isVid then acc ++ [⟨mid, true⟩]
          else twUrlLoop upl urls bound fuel (i + 1) (acc ++ [⟨mid, false⟩])
        | none => twUrlLoop upl urls bound fuel (i + 1) acc
    else acc

/-- The whole media-selection phase of postToTwitter: image files, then
video files, then URLs into the remaining slots. -/
def selectTwitterMedia (env : TwitterEnv) (nImg nVid : Nat)
    (urls : List String) : List MediaRef :=
  let s1 := twImageLoop env.imgUpload nImg nImg 0 0 []
  let s2 := twVideoStep env.vidUpload nVid s1
  twUrlLoop env.urlUpload urls (4 - s2.2) (min urls.length (4 - s2.2)) 0 s2.1

/-- Successful postToTwitter result shape. -/
structure TwitterSuccess where
  platform : String
  postId : String
  mediaIds : List MediaRef
deriving DecidableEq, Repr

/-- postToTwitter: the two validation throws sit outside the try block and
carry status 400 via httpError; inside the try, a response without
data.data throws the fixed invalid-response error with status 502, and
every thrown error passes through the catch-block classifier. -/
def postToTwitter (env : TwitterEnv) (hasToken : Bool) (content : Option String)
    (nImg nVid : Nat) (urls : List String) : Except Classified TwitterSuccess :=
  if hasToken = false then
    .error { message := "Twitter access token required", status := 400, retryAfter := none }
  else if content = none ∧ nImg = 0 ∧ nVid = 0 ∧ urls = [] then
    .error { message := "Content or media required", status := 400, retryAfter := none }
  else
    let mediaIds := selectTwitterMedia env nImg nVid urls
    match env.tweet (mediaIds.map MediaRef.id) with
    | .ok tid => .ok { platform := "Twitter", postId := tid, mediaIds := mediaIds }
    | .noData =>
      .error (classifyTwitter
        { response := none, status := some 502, retryAfter := none,
          message := some "Invalid response from Twitter API" })
    | .threw e => .error (classifyTwitter e)

/-! ### LinkedIn adapter (postToLinkedIn, posting.js lines 310 to 448)

Three per-item upload loops (image files, video files, URLs) each catch
and skip individual failures; the surviving asset references accumulate in
order into the media list of the final ugcPosts payload. -/

/-- Outcome of the final ugcPosts call: response.data.id present, a
response without an id, or a thrown error. -/
inductive LIPublishResult where
  | ok (postId : String)
  | noId
  | threw (e : RawErr)
deriving DecidableEq, Repr

/-- Oracles for the remote calls postToLinkedIn makes: uploadLinkedInMedia
per item (none models a thrown upload, caught and skipped by the caller)
and the final publish call, keyed by the asset list it is given. -/
structure LIEnv where
  imgUpload : Nat → Option String
  vidUpload : Nat → Option String
  urlUpload : Nat → Option String
  publish : List String → LIPublishResult

/-- One per-item upload loop of postToLinkedIn: each iteration pushes the
returned asset on success and skips the item on failure. -/
def liCollect (upl : Nat → Option String) (n : Nat) : List String :=
  (List.range n).filterMap upl

/-- Successful postToLinkedIn result shape. -/
structure LinkedInSuccess where
  platform : String
  postId : String
  mediaAssets : List String
  shareMediaCategory : String
deriving DecidableEq, Repr

/-- postToLinkedIn: validation throws are plain Errors (no status, routes
default to 500); uploads accumulate assets in order image files, video
files, URLs; shareMediaCategory is VIDEO when any video file or video URL
was supplied, IMAGE otherwise, NONE without assets; the final publish call
succeeds only when response.data.id is present, and publish failures pass
through the LinkedIn catch-block classifier. -/
def postToLinkedIn (env : LIEnv) (hasCreds : Bool) (content : Option String)
    (nImg nVid : Nat) (urls : List String) : Except Classified LinkedInSuccess :=
  if hasCreds = false then
    .error { message := "LinkedIn access token and user ID are required",
             status := 500, retryAfter := none }
  else if content = none ∧ nImg = 0 ∧ nVid = 0 ∧ urls = [] then
    .error { message := "Either content or media are required for LinkedIn posts",
             status := 500, retryAfter := none }
  else
    let mediaAssets :=
      liCollect env.imgUpload nImg ++ liCollect env.vidUpload nVid ++
        liCollect env.urlUpload urls.length
    let category :=
      if 0 < mediaAssets.length then
        if 0 < nVid ∨ urls.any isVideoUrl then "VIDEO" else "IMAGE"
      else "NONE"
    match env.publish mediaAssets with
    | .ok pid =>
      .ok { platform := "LinkedIn", postId := pid, mediaAssets := mediaAssets,
            shareMediaCategory := category }
    | .noId =>
      .error (classifyLinkedIn
        (plainErr "Invalid response from LinkedIn API - no post ID returned"))
    | .threw e => .error (classifyLinkedIn e)

/-! ### Facebook adapter (postToFacebook, posting.js lines 590 to 786)

mediaUrls split into image and video URLs by the extension regular
expression.  Two stand-alone single-video branches are followed by an
else-if chain (text only, single image file, single image URL, album);
a branch whose response lacks an id falls through, and control that
reaches the end of the chain throws the fixed invalid-response error with
status 502. -/

/-- One remote call of the Facebook adapter, for the call trace. -/
inductive FBCall where
  | videoFileUpload
  | videoUrlPost
  | feedTextPost
  | photoFilePost
  | photoUrlPost
  | unpubPhotoFile (i : Nat)
  | unpubPhotoUrl (i : Nat)
  | albumFeedPost
deriving DecidableEq, Repr

/-- Outcome of one Facebook Graph call: response.data.id present, a
response without an id, or a thrown error. -/
inductive FBCallResult where
  | ok (id : String)
  | noId
  | threw (e : RawErr)
deriving DecidableEq, Repr

/-- Oracles for the remote calls postToFacebook can make. -/
structure FBEnv where
  videoFilePost : FBCallResult
  videoUrlPost : FBCallResult
  textPost : FBCallResult
  photoFilePost : FBCallResult
  photoUrlPost : FBCallResult
  unpubPhotoFile : Nat → FBCallResult
  unpubPhotoUrl : Nat → FBCallResult
  albumPost : List String → FBCallResult

/-- Successful postToFacebook result shape. -/
structure FBSuccess where
  platform : String
  postId : String
  message : String
deriving DecidableEq, Repr

/-- Runs one simple Facebook branch body: returns on an id, falls through
(none) on a response without an id, and classifies a thrown error. -/
def fbSimpleCall (r : FBCallResult) (c : FBCall) (doneMsg : String) :
    List FBCall × Option (Except Classified FBSuccess) :=
  match r with
  | .ok id => ([c], some (.ok { platform := "Facebook", postId := id, message := doneMsg }))
  | .noId => ([c], none)
  | .threw e => ([c], some (.error (classifyFacebook e)))

/-- The else-if chain of postToFacebook: text-only, single image file,
single image URL, album.  In the album branch each unpublished photo
upload is tried per item (failures and id-less responses skipped); with no
photo ids the album post is not attempted and control falls through. -/
def fbChain (env : FBEnv) (nImgF nVidF : Nat) (iUrls vUrls : List String) :
    List FBCall × Option (Except Classified FBSuccess) :=
  if nImgF = 0 ∧ nVidF = 0 ∧ iUrls.length = 0 ∧ vUrls.length = 0 then
    fbSimpleCall env.textPost .feedTextPost "Facebook post published successfully!"
  else if nImgF = 1 ∧ nVidF = 0 ∧ iUrls.length = 0 ∧ vUrls.length = 0 then
    fbSimpleCall env.photoFilePost .photoFilePost "Facebook image post published successfully!"
  else if iUrls.length = 1 ∧ nImgF = 0 ∧ nVidF = 0 ∧ vUrls.length = 0 then
    fbSimpleCall env.photoUrlPost .photoUrlPost "Facebook image post published successfully!"
  else if 1 < nImgF ∨ 1 < iUrls.length then
    let fileIds := (List.range nImgF).filterMap fun i =>
      match env.unpubPhotoFile i with
      | .ok id => some id
      | _ => none
    let urlIds := (List.range iUrls.length).filterMap fun i =>
      match env.unpubPhotoUrl i with
      | .ok id => some id
      | _ => none
    let trace := (List.range nImgF).map FBCall.unpubPhotoFile ++
      (List.range iUrls.length).map FBCall.unpubPhotoUrl
    let photoIds := fileIds ++ urlIds
    if photoIds = [] then (trace, none)
    else
      let (t2, r2) := fbSimpleCall (env.albumPost photoIds) .albumFeedPost
        "Facebook album published successfully!"
      (trace ++ t2, r2)
  else ([], none)

/-- The try-block body of postToFacebook on the already-split URL lists:
the two single-video branches run first as independent if statements
(falling through when the response has no id), then the else-if chain;
control reaching the end throws the invalid-response error with status
502 through the catch-block classifier. -/
def fbBody (env : FBEnv) (nImgF nVidF : Nat) (iUrls vUrls : List String) :
    List FBCall × Except Classified FBSuccess :=
  match (if nVidF = 1 ∧ nImgF = 0 ∧ iUrls.length = 0 ∧ vUrls.length = 0 then
      fbSimpleCall env.videoFilePost .videoFileUpload
        "Facebook video post published successfully!"
    else ([], none)) with
  | (t1, some r) => (t1, r)
  | (t1, none) =>
    match (if vUrls.length = 1 ∧ nVidF = 0 ∧ nImgF = 0 ∧ iUrls.length = 0 then
        fbSimpleCall env.videoUrlPost .videoUrlPost
          "Facebook video post published successfully!"
      else ([], none)) with
    | (t2, some r) => (t1 ++ t2, r)
    | (t2, none) =>
      match fbChain env nImgF nVidF iUrls vUrls with
      | (t3, some r) => (t1 ++ t2 ++ t3, r)
      | (t3, none) =>
        (t1 ++ t2 ++ t3,
          .error (classifyFacebook
            { response := none, status := some 502, retryAfter := none,
              message := some "Invalid response from Facebook API" }))

/-- postToFacebook with its call trace.  Credentials and the
content-or-media validation throw before the try block with status 400;
mediaUrls are split into image and video URLs by the extension regular
expression, then the branch chain of fbBody runs. -/
def postToFacebook (env : FBEnv) (hasCreds : Bool) (content : Option String)
    (nImgF nVidF : Nat) (mediaUrls : List String) :
    List FBCall × Except Classified FBSuccess :=
  if hasCreds = false then
    ([], .error { message := "Facebook page ID and token required",
                  status := 400, retryAfter := none })
  else if content = none ∧ nImgF = 0 ∧ nVidF = 0 ∧ mediaUrls = [] then
    ([], .error { message := "Content or media required", status := 400, retryAfter := none })
  else
    fbBody env nImgF nVidF (mediaUrls.filter fun u => !(isVideoUrl u))
      (mediaUrls.filter fun u => isVideoUrl u)

/-! ### Instagram adapter (postToInstagram, posting.js lines 791 to 1078)

Every supplied URL is first classified by a HEAD request; mixing and count
checks run on the classified lists.  A single item goes through container
creation, the bounded status poll, and publish; multiple images go through
per-child containers, a carousel container, and publish.  In the poll loop
the throw raised on an ERROR status sits inside the same try whose catch
handles failed status requests, so both are swallowed; on the final
attempt the catch sets isReady and the publish is attempted anyway, while
a still-processing final status leaves isReady false and the timed-out
error is thrown after the loop. -/

/-- One remote call of the Instagram adapter, for the call trace. -/
inductive IgCall where
  | headCheck (url : String)
  | createContainer
  | statusCheck (attempt : Nat)
  | publishMedia
  | createChild (i : Nat)
  | createCarousel
  | publishCarousel
deriving DecidableEq, Repr

/-- Outcome of one status poll request: FINISHED, a processing status
code, an ERROR status (whose throw the catch swallows), or a thrown
request error. -/
inductive StatusCheck where
  | finished
  | processing (code : String)
  | errorStatus (s : String)
  | threw (msg : String)
deriving DecidableEq, Repr

/-- Outcome of one Instagram Graph call: response.data.id present, a
response without an id (the source then throws a message built from the
optional nested provider error), or a thrown error. -/
inductive IgCallResult where
  | ok (id : String)
  | noId (errMsg : Option String)
  | threw (e : RawErr)
deriving DecidableEq, Repr

/-- Oracles for the remote calls postToInstagram makes. -/
structure IgEnv where
  head : String → Option String
  createSingle : IgCallResult
  status : Nat → StatusCheck
  publishSingle : IgCallResult
  createChild : Nat → IgCallResult
  createCarousel : IgCallResult
  publishCarousel : IgCallResult

/-- The URL validation loop: one HEAD request per URL; a content-type
beginning image/ classifies the URL as an image, video/ as a video, and
anything else (or a failed request) drops the URL. -/
def igValidate (head : String → Option String) :
    List String → List IgCall × List (String × Bool)
  | [] => ([], [])
  | u :: rest =>
    let t := igValidate head rest
    match head u with
    | some ct =>
      if strStartsWith ct "image/" then (.headCheck u :: t.1, (u, false) :: t.2)
      else if strStartsWith ct "video/" then (.headCheck u :: t.1, (u, true) :: t.2)
      else (.headCheck u :: t.1, t.2)
    | none => (.headCheck u :: t.1, t.2)

/-- The container status poll loop, by remaining attempts; the attempt
counter after its increment is maxAttempts minus the remaining fuel.
Returns the status-check trace and the final isReady flag: FINISHED sets
it; a processing status leaves it; an ERROR status or a failed check is
swallowed and, only on the final attempt, sets it. -/
def pollLoop (status : Nat → StatusCheck) (maxAttempts : Nat) :
    Nat → List IgCall × Bool
  | 0 => ([], false)
  | r + 1 =>
    let attempt := maxAttempts - r
    match status attempt with
    | .finished => ([.statusCheck attempt], true)
    | .processing _ =>
      let t := pollLoop status maxAttempts r
      (.statusCheck attempt :: t.1, t.2)
    | .errorStatus _ =>
      if attempt = maxAttempts then ([.statusCheck attempt], true)
      else
        let t := pollLoop status maxAttempts r
        (.statusCheck attempt :: t.1, t.2)
    | .threw _ =>
      if attempt = maxAttempts then ([.statusCheck attempt], true)
      else
        let t := pollLoop status maxAttempts r
        (.statusCheck attempt :: t.1, t.2)

/-- The message the source builds when a Graph response misses its id. -/
def igNoIdMsg (prefixMsg : String) (errMsg : Option String) : String :=
  prefixMsg ++ errMsg.getD "Unknown error"

/-- postToInstagram with its call trace, returning the published post id
on success.  The credential and content validation throws precede the try
block (plain Errors, defaulting to status 500 at the routes); everything
thrown inside the try passes through the Instagram catch-block
classifier.  Success carries response.data.id of the publish call. -/
def postToInstagram (env : IgEnv) (hasCreds : Bool) (content : Option String)
    (mediaUrls : List String) : List IgCall × Except Classified String :=
  if hasCreds = false then
    ([], .error { message := "Instagram page access token and account ID are required",
                  status := 500, retryAfter := none })
  else if content = none ∧ mediaUrls = [] then
    ([], .error { message := "Content or media are required for Instagram posts",
                  status := 500, retryAfter := none })
  else if mediaUrls = [] then
    ([], .error (classifyInstagram
      (plainErr "Instagram requires at least one image or video. Text-only posts are not supported.")))
  else
    let v := igValidate env.head mediaUrls
    let headTrace := v.1
    let validUrls := v.2
    let videoUrls := validUrls.filter fun x => x.2
    let imageUrls := validUrls.filter fun x => !x.2
    if validUrls = [] then
      (headTrace, .error (classifyInstagram
        (plainErr "No valid, accessible media URLs found. All media must be publicly accessible.")))
    else if 0 < videoUrls.length ∧ 0 < imageUrls.length then
      (headTrace, .error (classifyInstagram
        (plainErr "Instagram does not support mixing images and videos in the same post. Please post them separately.")))
    else if 1 < videoUrls.length then
      (headTrace, .error (classifyInstagram (plainErr "Instagram supports only 1 video per post.")))
    else
      -- the Reels format validation performs one extra HEAD request on the
      -- single video URL; its failure is only warned about, never fatal
      let reelsTrace :=
        match videoUrls with
        | (u, _) :: _ => [IgCall.headCheck u]
        | [] => []
      let t0 := headTrace ++ reelsTrace
      if validUrls.length = 1 then
        match env.createSingle with
        | .threw e => (t0 ++ [.createContainer], .error (classifyInstagram e))
        | .noId m =>
          (t0 ++ [.createContainer], .error (classifyInstagram
            (plainErr (igNoIdMsg "Failed to create Instagram media container: " m))))
        | .ok _ =>
          let pl := pollLoop env.status 30 30
          let t1 := t0 ++ [.createContainer] ++ pl.1
          if pl.2 = false then
            (t1, .error (classifyInstagram
              (plainErr "Media processing timed out. Please try again with a smaller video file.")))
          else
            match env.publishSingle with
            | .ok pid => (t1 ++ [.publishMedia], .ok pid)
            | .noId m =>
              (t1 ++ [.publishMedia], .error (classifyInstagram
                (plainErr (igNoIdMsg "Failed to publish Instagram post: " m))))
            | .threw e => (t1 ++ [.publishMedia], .error (classifyInstagram e))
      else if validUrls.length ≤ 10 ∧ videoUrls.length = 0 then
        let n := validUrls.length
        let childTrace := (List.range n).map IgCall.createChild
        let containerIds := (List.range n).filterMap fun i =>
          match env.createChild i with
          | .ok id => some id
          | _ => none
        if containerIds = [] then
          (t0 ++ childTrace, .error (classifyInstagram
            (plainErr "Failed to create any Instagram media containers")))
        else
          match env.createCarousel with
          | .threw e => (t0 ++ childTrace ++ [.createCarousel], .error (classifyInstagram e))
          | .noId m =>
            (t0 ++ childTrace ++ [.createCarousel], .error (classifyInstagram
              (plainErr (igNoIdMsg "Failed to create Instagram carousel container: " m))))
          | .ok _ =>
            match env.publishCarousel with
            | .ok pid => (t0 ++ childTrace ++ [.createCarousel, .publishCarousel], .ok pid)
            | .noId m =>
              (t0 ++ childTrace ++ [.createCarousel, .publishCarousel],
                .error (classifyInstagram
                  (plainErr (igNoIdMsg "Failed to publish Instagram carousel: " m))))
            | .threw e =>
              (t0 ++ childTrace ++ [.createCarousel, .publishCarousel],
                .error (classifyInstagram e))
      else
        (t0, .error (classifyInstagram
          (plainErr "Instagram supports maximum 10 images in a carousel, or 1 video per post")))

/-! ### Cloudinary normalization and the Instagram route
(convertFilesToCloudinaryUrls, posting.js lines 39 to 131; the Instagram
route, lines 1091 to 1220) -/

/-- The kind tag convertFilesToCloudinaryUrls attaches to each entry. -/
inductive CloudKind where
  | image
  | video
deriving DecidableEq, Repr

/-- One entry of the list convertFilesToCloudinaryUrls returns (the
public_id field is omitted: nothing downstream reads it). -/
structure CloudMedia where
  url : String
  kind : CloudKind
deriving DecidableEq, Repr

/-- convertFilesToCloudinaryUrls: one upload per image file then one per
video file; each upload sits in its own try block, so a failed item is
skipped and the function itself never throws. -/
def convertFilesToCloudinaryUrls (imgUpload : Nat → Option String) (nImg : Nat)
    (vidUpload : Nat → Option String) (nVid : Nat) : List CloudMedia :=
  ((List.range nImg).filterMap fun i => (imgUpload i).map fun u => ⟨u, .image⟩) ++
    ((List.range nVid).filterMap fun i => (vidUpload i).map fun u => ⟨u, .video⟩)

/-- The responses of the Instagram route: the account guards, the two
media-count validations answered with status 400 before postToInstagram is
invoked, and the adapter invocation with its trace. -/
inductive IgRouteResponse where
  | accountNotFound
  | notConfigured
  | noMediaValidation
  | tooManyMedia
  | posted (trace : List IgCall) (outcome : Except Classified String)

/-- The Instagram route: after the account guards, files (when present)
run through convertFilesToCloudinaryUrls, body media URLs are appended,
and the combined list must be non-empty and at most 10 long before
postToInstagram runs. -/
def instagramRoute (found configured : Bool)
    (imgUpload : Nat → Option String) (nImg : Nat)
    (vidUpload : Nat → Option String) (nVid : Nat)
    (bodyUrls : List String) (content : Option String) (env : IgEnv) :
    IgRouteResponse :=
  if found = false then .accountNotFound
  else if configured = false then .notConfigured
  else
    let cloudUrls :=
      if 0 < nImg ∨ 0 < nVid then
        (convertFilesToCloudinaryUrls imgUpload nImg vidUpload nVid).map CloudMedia.url
      else []
    let allMediaUrls := cloudUrls ++ bodyUrls
    if allMediaUrls.length = 0 then .noMediaValidation
    else if 10 < allMediaUrls.length then .tooManyMedia
    else
      let r := postToInstagram env true content allMediaUrls
      .posted r.1 r.2

/-! ### The /multi route (posting.js lines 1406 to 1531)

parsedPlatforms.map builds one promise per requested platform; inside each
promise the whole body (account lookup, credential checks, adapter call)
sits in a try whose catch returns the failed entry, so every promise
resolves.  Promise.all preserves the request order, and the report counts
partition the resolved entries. -/

/-- What one mapped promise body does for its platform, abstracting the
account lookup and the adapter call: the lookup finds no account (the
thrown message names the platform), the body throws with some message
(credential checks, unimplemented platform, or the adapter), or the
adapter succeeds. -/
inductive PlatformOutcome where
  | noAccount
  | adapterThrew (msg : String)
  | ok (result : String)
deriving DecidableEq, Repr

/-- One entry of the /multi results array. -/
structure MultiEntry where
  platform : String
  success : Bool
  payload : String
deriving DecidableEq, Repr

/-- One mapped promise of the /multi route: the catch converts any throw
into a resolved failed entry for this platform. -/
def platformPromise (env : String → PlatformOutcome) (p : String) : MultiEntry :=
  match env p with
  | .noAccount => { platform := p, success := false,
                    payload := p ++ " account not found or not connected" }
  | .adapterThrew m => { platform := p, success := false, payload := m }
  | .ok r => { platform := p, success := true, payload := r }

/-- The aggregate report of the /multi route. -/
structure MultiReport where
  success : Bool
  totalPlatforms : Nat
  successful : Nat
  failed : Nat
  results : List MultiEntry
deriving DecidableEq, Repr

/-- The report the /multi route builds after Promise.all resolves. -/
def multiReport (platforms : List String) (env : String → PlatformOutcome) :
    MultiReport :=
  let results := platforms.map (platformPromise env)
  { success := results.any fun r => r.success,
    totalPlatforms := platforms.length,
    successful := (results.filter fun r => r.success).length,
    failed := (results.filter fun r => !r.success).length,
    results := results }

/-- The /multi route handler: a non-array or empty platforms list is
rejected with status 400 before any promise is created; otherwise the
aggregate report is returned. -/
def multiHandler (platforms : List String) (env : String → PlatformOutcome) :
    Except String MultiReport :=
  if platforms.isEmpty then .error "Platforms array required"
  else .ok (multiReport platforms env)

/-! ### Helper lemmas -/

theorem platformPromise_platform (env : String → PlatformOutcome) (p : String) :
    (platformPromise env p).platform = p := by
  unfold platformPromise
  cases env p <;> rfl

theorem filter_length_partition (l : List MultiEntry) :
    (l.filter fun r => r.success).length + (l.filter fun r => !r.success).length
      = l.length := by
  induction l with
  | nil => rfl
  | cons a t ih =>
    cases h : a.success <;> simp [List.filter_cons, h, ← ih] <;> omega

theorem multiReport_results (platforms : List String) (env : String → PlatformOutcome) :
    (multiReport platforms env).results = platforms.map (platformPromise env) := rfl

/-! ### C1 and C2: the /multi aggregate report -/

/-- C1: for every multi-destination publish request whose platforms list is
non-empty, the /multi report holds exactly one result entry per requested
platform, in request order, and the successful and failed counts equal the
number of result entries with success true and false respectively, so they
sum to the number of requested platforms. -/
theorem C1_multi_report_shape (platforms : List String)
    (env : String → PlatformOutcome) (h : platforms ≠ []) :
    multiHandler platforms env = .ok (multiReport platforms env) ∧
    (multiReport platforms env).results.map MultiEntry.platform = platforms ∧
    (multiReport platforms env).successful
      = ((multiReport platforms env).results.filter fun r => r.success).length ∧
    (multiReport platforms env).failed
      = ((multiReport platforms env).results.filter fun r => !r.success).length ∧
    (multiReport platforms env).successful + (multiReport platforms env).failed
      = platforms.length := by
  refine ⟨?_, ?_, rfl, rfl, ?_⟩
  · unfold multiHandler
    rw [if_neg]
    simp [List.isEmpty_iff, h]
  · rw [multiReport_results, List.map_map]
    have : (MultiEntry.platform ∘ platformPromise env) = id := by
      funext p
      exact platformPromise_platform env p
    rw [this, List.map_id]
  · show ((multiReport platforms env).results.filter fun r => r.success).length
        + ((multiReport platforms env).results.filter fun r => !r.success).length
        = platforms.length
    rw [filter_length_partition, multiReport_results, List.length_map]

/-- C1 witness at a concrete two-platform request. -/
theorem C1_multi_report_shape_witness :
    multiHandler ["twitter", "facebook"]
        (fun p => if p = "twitter" then .ok "t1" else .adapterThrew "boom")
      = .ok (multiReport ["twitter", "facebook"]
        (fun p => if p = "twitter" then .ok "t1" else .adapterThrew "boom")) ∧
    (multiReport ["twitter", "facebook"]
        (fun p => if p = "twitter" then .ok "t1" else .adapterThrew "boom")).results.map
        MultiEntry.platform = ["twitter", "facebook"] ∧
    (multiReport ["twitter", "facebook"]
        (fun p => if p = "twitter" then .ok "t1" else .adapterThrew "boom")).successful
      = ((multiReport ["twitter", "facebook"]
        (fun p => if p = "twitter" then .ok "t1" else .adapterThrew "boom")).results.filter
          fun r => r.success).length ∧
    (multiReport ["twitter", "facebook"]
        (fun p => if p = "twitter" then .ok "t1" else .adapterThrew "boom")).failed
      = ((multiReport ["twitter", "facebook"]
        (fun p => if p = "twitter" then .ok "t1" else .adapterThrew "boom")).results.filter
          fun r => !r.success).length ∧
    (multiReport ["twitter", "facebook"]
        (fun p => if p = "twitter" then .ok "t1" else .adapterThrew "boom")).successful
      + (multiReport ["twitter", "facebook"]
        (fun p => if p = "twitter" then .ok "t1" else .adapterThrew "boom")).failed
      = (["twitter", "facebook"] : List String).length :=
  C1_multi_report_shape ["twitter", "facebook"]
    (fun p => if p = "twitter" then .ok "t1" else .adapterThrew "boom") (by decide)

/-- C2: a failure thrown by one platform's adapter or by its account
lookup is caught inside that platform's mapped promise and converted into
exactly one failed result entry for that slot, and every other slot's
entry is unchanged under any variation of that platform's behavior (so a
sibling platform's adapter still runs and is reported identically). -/
theorem C2_multi_isolated_failure (platforms : List String)
    (env env' : String → PlatformOutcome) (i : Nat) (p m : String)
    (hi : platforms[i]? = some p)
    (hthrew : env p = .adapterThrew m ∨
      (env p = .noAccount ∧ m = p ++ " account not found or not connected"))
    (hagree : ∀ q, q ≠ p → env' q = env q) :
    (multiReport platforms env).results[i]?
      = some { platform := p, success := false, payload := m } ∧
    ∀ (j : Nat) (q : String), platforms[j]? = some q → q ≠ p →
      (multiReport platforms env').results[j]?
        = (multiReport platforms env).results[j]? := by
  constructor
  · rw [multiReport_results, List.getElem?_map, hi]
    rcases hthrew with h | ⟨h, rfl⟩ <;> simp [platformPromise, h]
  · intro j q hj hq
    rw [multiReport_results, multiReport_results, List.getElem?_map,
      List.getElem?_map, hj]
    simp only [Option.map_some']
    unfold platformPromise
    rw [hagree q hq]

/-- C2 witness: a throwing Twitter promise yields its failed entry while
the Facebook entry is identical whatever Twitter does. -/
theorem C2_multi_isolated_failure_witness :
    (multiReport ["twitter", "facebook"]
        (fun q => if q = "twitter" then .adapterThrew "boom" else .ok "fb")).results[0]?
      = some { platform := "twitter", success := false, payload := "boom" } ∧
    ∀ (j : Nat) (q : String), (["twitter", "facebook"] : List String)[j]? = some q → q ≠ "twitter" →
      (multiReport ["twitter", "facebook"]
          (fun q => if q = "twitter" then .ok "tweeted" else .ok "fb")).results[j]?
        = (multiReport ["twitter", "facebook"]
          (fun q => if q = "twitter" then .adapterThrew "boom" else .ok "fb")).results[j]? :=
  C2_multi_isolated_failure ["twitter", "facebook"]
    (fun q => if q = "twitter" then .adapterThrew "boom" else .ok "fb")
    (fun q => if q = "twitter" then .ok "tweeted" else .ok "fb")
    0 "twitter" "boom" (by decide) (Or.inl (by decide))
    (fun q hq => by simp [if_neg hq])

/-! ### C9: classification of HTTP 429 upstream failures -/

/-- A raw 429 upstream failure with a Retry-After header of 120 seconds,
as the Twitter catch block receives it from axios. -/
def rateLimitResp : RespInfo :=
  { status := some 429, retryAfter := some "120", dataError := none,
    dataMessage := none, dataErrorMessage := none, dataErrorUserMsg := none }

/-- The raw error object wrapping that 429 response. -/
def rateLimitErr : RawErr :=
  { response := some rateLimitResp, status := none, retryAfter := none,
    message := some "Request failed with status code 429" }

/-- C9 counterexample: on a 429 with Retry-After 120, both the Twitter
and the LinkedIn catch blocks produce the fixed rate-limit phrasing, and
neither message includes the retry-after value 120 anywhere, refuting the
claim that the human-readable message includes the retry-after value (the
value is carried only in the retryAfter field of the propagated error). -/
theorem C9_counterexample :
    (classifyTwitter rateLimitErr).message
      = "Twitter rate limit exceeded. Please try again later." ∧
    containsSub (classifyTwitter rateLimitErr).message "120" = false ∧
    (classifyTwitter rateLimitErr).retryAfter = some "120" ∧
    (classifyLinkedIn rateLimitErr).message
      = "LinkedIn rate limit exceeded. Please try again later." ∧
    containsSub (classifyLinkedIn rateLimitErr).message "120" = false ∧
    (classifyLinkedIn rateLimitErr).retryAfter = some "120" := by decide

/-- C9 amended: for every upstream failure whose response has HTTP status
429 and a Retry-After header, the Twitter classifier yields status 429, a
message that mentions the rate limit (either the provider message already
did, or the fixed phrasing replaces it), and carries the Retry-After
header value on the propagated error; the LinkedIn classifier likewise
yields status 429 and carries the value, its message being replaced by
its fixed rate-limit phrasing unconditionally; and the route error
response built from either propagated error echoes the value as a
Retry-After response header.  Neither message embeds the retry-after
value itself. -/
theorem C9_amended (e : RawErr) (r : RespInfo) (v : String)
    (hr : e.response = some r) (hs : r.status = some 429)
    (hra : r.retryAfter = some v) :
    ((classifyTwitter e).status = 429 ∧
      (classifyTwitter e).retryAfter = some v ∧
      containsRateLimit (classifyTwitter e).message = true) ∧
    ((classifyLinkedIn e).status = 429 ∧
      (classifyLinkedIn e).retryAfter = some v ∧
      (classifyLinkedIn e).message
        = "LinkedIn rate limit exceeded. Please try again later." ∧
      containsRateLimit (classifyLinkedIn e).message = true) ∧
    (routeErrorResponse (classifyTwitter e)).retryAfterHeader = some v ∧
    (routeErrorResponse (classifyLinkedIn e)).retryAfterHeader = some v := by
  have hstat : e.response.bind RespInfo.status = some 429 := by rw [hr]; exact hs
  have hrat : e.response.bind RespInfo.retryAfter = some v := by rw [hr]; exact hra
  have hTra : (classifyTwitter e).retryAfter = some v := by
    show ((e.response.bind RespInfo.retryAfter).orElse fun _ => e.retryAfter) = some v
    rw [hrat]
    rfl
  have hLra : (classifyLinkedIn e).retryAfter = some v := hrat
  have hLmsg : (classifyLinkedIn e).message
      = "LinkedIn rate limit exceeded. Please try again later." := by
    simp only [classifyLinkedIn, hstat]
    rfl
  refine ⟨⟨?_, hTra, ?_⟩, ⟨?_, hLra, hLmsg, ?_⟩, hTra, hLra⟩
  · show ((e.response.bind RespInfo.status).orElse fun _ => e.status).getD 500 = 429
    rw [hstat]
    rfl
  · have hm : (classifyTwitter e).message
        = if containsRateLimit (twitterErrMsg e) = false
          then "Twitter rate limit exceeded. Please try again later."
          else twitterErrMsg e := by
      simp only [classifyTwitter, hstat]
      simp [Option.orElse]
    rw [hm]
    by_cases h : containsRateLimit (twitterErrMsg e) = false
    · rw [if_pos h]
      decide
    · rw [if_neg h]
      cases hcr : containsRateLimit (twitterErrMsg e) with
      | false => exact absurd hcr h
      | true => rfl
  · show (e.response.bind RespInfo.status).getD 500 = 429
    rw [hstat]
    rfl
  · rw [hLmsg]
    decide

/-- C9 amended witness at the concrete 429 error. -/
theorem C9_amended_witness :
    ((classifyTwitter rateLimitErr).status = 429 ∧
      (classifyTwitter rateLimitErr).retryAfter = some "120" ∧
      containsRateLimit (classifyTwitter rateLimitErr).message = true) ∧
    ((classifyLinkedIn rateLimitErr).status = 429 ∧
      (classifyLinkedIn rateLimitErr).retryAfter = some "120" ∧
      (classifyLinkedIn rateLimitErr).message
        = "LinkedIn rate limit exceeded. Please try again later." ∧
      containsRateLimit (classifyLinkedIn rateLimitErr).message = true) ∧
    (routeErrorResponse (classifyTwitter rateLimitErr)).retryAfterHeader = some "120" ∧
    (routeErrorResponse (classifyLinkedIn rateLimitErr)).retryAfterHeader = some "120" :=
  C9_amended rateLimitErr rateLimitResp "120" rfl rfl rfl

/-! ### C10: Facebook given one video file and one image -/

theorem fbBody_fallthrough (env : FBEnv) (nImgF : Nat) (iUrls vUrls : List String)
    (h1 : nImgF + iUrls.length = 1) (_hv : vUrls.length = 0) :
    fbBody env nImgF 1 iUrls vUrls
      = ([], .error { message := "Invalid response from Facebook API",
                      status := 502, retryAfter := none }) := by
  unfold fbBody
  rw [if_neg (by rintro ⟨-, ha, hb, -⟩; rw [ha, hb] at h1; exact absurd h1 (by decide))]
  rw [if_neg (by rintro ⟨-, hc, -⟩; exact absurd hc (by decide))]
  unfold fbChain
  rw [if_neg (by rintro ⟨-, hc, -⟩; exact absurd hc (by decide))]
  rw [if_neg (by rintro ⟨-, hc, -⟩; exact absurd hc (by decide))]
  rw [if_neg (by rintro ⟨-, -, hc, -⟩; exact absurd hc (by decide))]
  rw [if_neg (by rintro (hc | hc) <;> omega)]
  rfl

/-- C10: a Facebook publish input with exactly one video file and exactly
one image (file or URL, and no video URLs) matches no branch: the adapter
performs no publish call at all and the outcome is the generic invalid
response error with status 502, not a validation error naming the
unsupported mix. -/
theorem C10_facebook_mixed_falls_through (env : FBEnv) (content : Option String)
    (nImgF : Nat) (mediaUrls : List String)
    (hImg : nImgF + (mediaUrls.filter fun u => !(isVideoUrl u)).length = 1)
    (hVid : (mediaUrls.filter fun u => isVideoUrl u).length = 0) :
    postToFacebook env true content nImgF 1 mediaUrls
      = ([], .error { message := "Invalid response from Facebook API",
                      status := 502, retryAfter := none }) := by
  unfold postToFacebook
  rw [if_neg (by decide)]
  rw [if_neg (by rintro ⟨-, -, hc, -⟩; exact absurd hc (by decide))]
  exact fbBody_fallthrough env nImgF _ _ hImg hVid

/-- An all-succeeding Facebook oracle for the C10 witness. -/
def fbEnvAllOk : FBEnv :=
  { videoFilePost := .ok "v", videoUrlPost := .ok "vu", textPost := .ok "t",
    photoFilePost := .ok "p", photoUrlPost := .ok "pu",
    unpubPhotoFile := fun _ => .ok "uf", unpubPhotoUrl := fun _ => .ok "uu",
    albumPost := fun _ => .ok "al" }

/-- C10 witness: one video file plus one image file. -/
theorem C10_facebook_mixed_falls_through_witness :
    postToFacebook fbEnvAllOk true (some "hello") 1 1 []
      = ([], .error { message := "Invalid response from Facebook API",
                      status := 502, retryAfter := none }) :=
  C10_facebook_mixed_falls_through fbEnvAllOk (some "hello") 1 []
    (by decide) (by decide)

/-! ### C7: LinkedIn skips a failed middle upload -/

/-- C7: for a LinkedIn publish input with 3 media items where the second
item's upload fails and the first and third succeed, the final publish
payload's media list holds exactly the asset references of items 1 and 3
in that order, and the overall result is a success when the publish call
returns a post id. -/
theorem C7_linkedin_skips_failed_item (env : LIEnv) (content : Option String)
    (a c pid : String)
    (h0 : env.imgUpload 0 = some a) (h1 : env.imgUpload 1 = none)
    (h2 : env.imgUpload 2 = some c) (hp : env.publish [a, c] = .ok pid) :
    postToLinkedIn env true content 3 0 []
      = .ok { platform := "LinkedIn", postId := pid, mediaAssets := [a, c],
              shareMediaCategory := "IMAGE" } := by
  have hcollect : List.filterMap env.imgUpload (List.range 3) = [a, c] := by
    have hr : List.range 3 = [0, 1, 2] := rfl
    rw [hr]
    simp [List.filterMap_cons, h0, h1, h2]
  unfold postToLinkedIn
  rw [if_neg (by decide)]
  rw [if_neg (by rintro ⟨-, hc, -⟩; exact absurd hc (by decide))]
  simp only [liCollect, List.length_nil, List.range_zero, List.filterMap_nil,
    List.append_nil, hcollect]
  rw [hp]
  rfl

/-- A LinkedIn oracle failing exactly on the second image upload. -/
def liEnvSkip : LIEnv :=
  { imgUpload := fun i => if i = 0 then some "asset0" else if i = 2 then some "asset2" else none,
    vidUpload := fun _ => none, urlUpload := fun _ => none,
    publish := fun l => if l = ["asset0", "asset2"] then .ok "urn:li:share:1" else .noId }

/-- C7 witness at the concrete 3-image input. -/
theorem C7_linkedin_skips_failed_item_witness :
    postToLinkedIn liEnvSkip true (some "hello") 3 0 []
      = .ok { platform := "LinkedIn", postId := "urn:li:share:1",
              mediaAssets := ["asset0", "asset2"], shareMediaCategory := "IMAGE" } :=
  C7_linkedin_skips_failed_item liEnvSkip (some "hello") "asset0" "asset2"
    "urn:li:share:1" (by decide) (by decide) (by decide) (by decide)

/-! ### C5 and C6: Twitter media selection -/

/-- Number of video references in a media id list. -/
def videoCount (l : List MediaRef) : Nat :=
  (l.filter fun r => r.isVideo).length

/-- Number of image references in a media id list. -/
def imageCount (l : List MediaRef) : Nat :=
  (l.filter fun r => !r.isVideo).length

theorem twImageLoop_videoCount (upl : Nat → Option String) (len : Nat) :
    ∀ fuel i p acc, videoCount (twImageLoop upl len fuel i p acc).1 = videoCount acc := by
  intro fuel
  induction fuel with
  | zero => intro i p acc; rfl
  | succ n ih =>
    intro i p acc
    simp only [twImageLoop]
    split
    · split
      · rw [ih]
        simp [videoCount, List.filter_append]
      · rw [ih]
    · rfl

theorem twVideoStep_videoCount (upl : Nat → Option String) (vidLen : Nat)
    (st : List MediaRef × Nat) :
    videoCount (twVideoStep upl vidLen st).1 ≤ videoCount st.1 + 1 := by
  unfold twVideoStep
  split
  · cases upl 0 with
    | some mid => simp [videoCount, List.filter_append]
    | none => simp
  · simp

theorem twUrlLoop_videoCount (upl : Nat → Option String) (urls : List String)
    (bound : Nat) :
    ∀ fuel i acc, videoCount acc ≤ 1 →
      videoCount (twUrlLoop upl urls bound fuel i acc) ≤ 1 := by
  intro fuel
  induction fuel with
  | zero =>
    intro i acc h
    exact h
  | succ n ih =>
    intro i acc h
    simp only [twUrlLoop]
    split
    · split
      · exact ih _ _ h
      · rename_i hnot
        split
        · split
          · rename_i hvid
            have hlen : acc.length = 0 := by
              by_contra hl
              exact hnot ⟨hvid, Nat.pos_of_ne_zero hl⟩
            have : acc = [] := List.length_eq_zero.mp hlen
            subst this
            simp [videoCount]
          · refine ih _ _ ?_
            simpa [videoCount, List.filter_append] using h
        · exact ih _ _ h
    · exact h

/-- C6 counterexample: with no image files, one video file whose upload
succeeds, and one image URL, the selected media id list mixes kinds: it
holds one video reference and one image reference, refuting the claim
that a list containing a video holds no image references. -/
theorem C6_counterexample :
    selectTwitterMedia
        { imgUpload := fun _ => none, vidUpload := fun _ => some "vid0",
          urlUpload := fun _ => some "url0", tweet := fun _ => .ok "t" }
        0 1 ["https://cdn.example/pic.jpg"]
      = [⟨"vid0", true⟩, ⟨"url0", false⟩] ∧
    videoCount [(⟨"vid0", true⟩ : MediaRef), ⟨"url0", false⟩] = 1 ∧
    imageCount [(⟨"vid0", true⟩ : MediaRef), ⟨"url0", false⟩] = 1 := by decide

/-- C6 amended: the media id list attached to the tweet payload holds at
most one video reference for every input and oracle; but it can mix
kinds: a successfully uploaded video file followed by image URLs yields a
list with one video and image references together. -/
theorem C6_amended (env : TwitterEnv) (nImg nVid : Nat) (urls : List String) :
    videoCount (selectTwitterMedia env nImg nVid urls) ≤ 1 := by
  unfold selectTwitterMedia
  refine twUrlLoop_videoCount env.urlUpload urls _ _ _ _ ?_
  have h1 : videoCount (twImageLoop env.imgUpload nImg nImg 0 0 []).1 = 0 :=
    twImageLoop_videoCount env.imgUpload nImg nImg 0 0 []
  have h2 := twVideoStep_videoCount env.vidUpload nVid
    (twImageLoop env.imgUpload nImg nImg 0 0 [])
  omega

/-- C5 counterexample: 5 image files whose uploads all succeed (no videos
and no URLs) yield a media id list of length 2, not 4: the loop bound
4 - processedCount shrinks as successes accumulate, so uploading stops
after the second image; the claim that exactly 4 are uploaded is false. -/
theorem C5_counterexample :
    (postToTwitter
        { imgUpload := fun i => some (if i = 0 then "m0" else if i = 1 then "m1" else "mx"),
          vidUpload := fun _ => none, urlUpload := fun _ => none,
          tweet := fun _ => .ok "t1" }
        true (some "hello") 5 0 [])
      = .ok { platform := "Twitter", postId := "t1",
              mediaIds := [⟨"m0", false⟩, ⟨"m1", false⟩] } ∧
    ¬((2 : Nat) = 4) := by decide

/-- C5 amended: for a Twitter publish input with 5 image files and no
videos or URLs, when the individual uploads succeed the adapter uploads
exactly 2 of them (the loop condition i < min(5, 4 - processedCount)
fails at i = 2 once two uploads succeeded); the remaining images are
silently dropped and the post still succeeds when the tweet call returns
its data. -/
theorem C5_amended (env : TwitterEnv) (content : Option String) (a b tid : String)
    (h0 : env.imgUpload 0 = some a) (h1 : env.imgUpload 1 = some b)
    (ht : env.tweet [a, b] = .ok tid) :
    postToTwitter env true content 5 0 []
      = .ok { platform := "Twitter", postId := tid,
              mediaIds := [⟨a, false⟩, ⟨b, false⟩] } := by
  have u1 : twImageLoop env.imgUpload 5 5 0 0 ([] : List MediaRef)
      = (match env.imgUpload 0 with
         | some mid => twImageLoop env.imgUpload 5 4 1 1 [⟨mid, false⟩]
         | none => twImageLoop env.imgUpload 5 4 1 0 []) := rfl
  have u2 : twImageLoop env.imgUpload 5 4 1 1 [⟨a, false⟩]
      = (match env.imgUpload 1 with
         | some mid => twImageLoop env.imgUpload 5 3 2 2 [⟨a, false⟩, ⟨mid, false⟩]
         | none => twImageLoop env.imgUpload 5 3 2 1 [⟨a, false⟩]) := rfl
  have u3 : twImageLoop env.imgUpload 5 3 2 2 [⟨a, false⟩, ⟨b, false⟩]
      = ([⟨a, false⟩, ⟨b, false⟩], 2) := rfl
  have hsel : selectTwitterMedia env 5 0 [] = [⟨a, false⟩, ⟨b, false⟩] := by
    unfold selectTwitterMedia
    simp only [u1, h0, u2, h1, u3]
    rfl
  unfold postToTwitter
  rw [if_neg (by decide)]
  rw [if_neg (by rintro ⟨-, hc, -⟩; exact absurd hc (by decide))]
  simp only [hsel, List.map_cons, List.map_nil]
  rw [ht]

/-- A Twitter oracle whose image uploads all succeed, for the C5 witness. -/
def twEnvAllOk : TwitterEnv :=
  { imgUpload := fun i => some (if i = 0 then "m0" else if i = 1 then "m1" else "mx"),
    vidUpload := fun _ => none, urlUpload := fun _ => none,
    tweet := fun l => if l = ["m0", "m1"] then .ok "t1" else .noData }

/-- C5 amended witness at the concrete 5-image input. -/
theorem C5_amended_witness :
    postToTwitter twEnvAllOk true (some "hello") 5 0 []
      = .ok { platform := "Twitter", postId := "t1",
              mediaIds := [⟨"m0", false⟩, ⟨"m1", false⟩] } :=
  C5_amended twEnvAllOk (some "hello") "m0" "m1" "t1" (by decide) (by decide) (by decide)

/-! ### C3, C4 and C8: Instagram validation, poll exhaustion, empty batch -/

/-- True exactly on a processing (non-FINISHED, non-ERROR, non-thrown)
status poll outcome. -/
def isProcessing : StatusCheck → Bool
  | .processing _ => true
  | _ => false

/-- An Instagram oracle that classifies one URL as a video and the rest as
images, with every Graph call succeeding. -/
def igEnvMixed : IgEnv :=
  { head := fun u => if u = "https://cdn.example/v.mp4" then some "video/mp4" else some "image/jpeg",
    createSingle := .ok "c1", status := fun _ => .finished, publishSingle := .ok "p1",
    createChild := fun _ => .ok "ch", createCarousel := .ok "car",
    publishCarousel := .ok "pc" }

/-- C3 counterexample: on the input with one video URL and one image URL
the adapter does fail with the mixing validation message, but only after
performing one HEAD request per URL: the call trace is non-empty,
refuting the claim that the failure precedes any network call. -/
theorem C3_counterexample :
    postToInstagram igEnvMixed true (some "hi")
        ["https://cdn.example/v.mp4", "https://cdn.example/i.jpg"]
      = ([.headCheck "https://cdn.example/v.mp4", .headCheck "https://cdn.example/i.jpg"],
         .error { message := "Instagram does not support mixing images and videos in the same post. Please post them separately.",
                  status := 500, retryAfter := none }) ∧
    (postToInstagram igEnvMixed true (some "hi")
        ["https://cdn.example/v.mp4", "https://cdn.example/i.jpg"]).1 ≠ [] := by decide

/-- C3 amended: for a publish input of one video URL and one image URL the
adapter fails with the mixed-kind validation error before any
container-creation or publish call, but after performing exactly one
classification HEAD request per URL. -/
theorem C3_amended (env : IgEnv) (content : Option String) (v i ctv cti : String)
    (hv : env.head v = some ctv) (hvI : strStartsWith ctv "image/" = false)
    (hvV : strStartsWith ctv "video/" = true)
    (hi : env.head i = some cti) (hiI : strStartsWith cti "image/" = true) :
    postToInstagram env true content [v, i]
      = ([.headCheck v, .headCheck i],
         .error { message := "Instagram does not support mixing images and videos in the same post. Please post them separately.",
                  status := 500, retryAfter := none }) := by
  have hval : igValidate env.head [v, i]
      = ([.headCheck v, .headCheck i], [(v, true), (i, false)]) := by
    simp [igValidate, hv, hi, hvI, hvV, hiI]
  simp [postToInstagram, hval, classifyInstagram, plainErr]

/-- C3 amended witness at the concrete mixed input. -/
theorem C3_amended_witness :
    postToInstagram igEnvMixed true (some "hi")
        ["https://cdn.example/v.mp4", "https://cdn.example/i.jpg"]
      = ([.headCheck "https://cdn.example/v.mp4", .headCheck "https://cdn.example/i.jpg"],
         .error { message := "Instagram does not support mixing images and videos in the same post. Please post them separately.",
                  status := 500, retryAfter := none }) :=
  C3_amended igEnvMixed (some "hi") "https://cdn.example/v.mp4"
    "https://cdn.example/i.jpg" "video/mp4" "image/jpeg"
    (by decide) (by decide) (by decide) (by decide) (by decide)

theorem pollLoop_all_processing (status : Nat → StatusCheck)
    (h : ∀ a, isProcessing (status a) = true) (maxA : Nat) :
    ∀ r, (pollLoop status maxA r).2 = false ∧
      ∀ c ∈ (pollLoop status maxA r).1, ∃ a, c = IgCall.statusCheck a := by
  intro r
  induction r with
  | zero =>
    refine ⟨rfl, ?_⟩
    intro c hc
    cases hc
  | succ n ih =>
    have hp := h (maxA - n)
    cases hs : status (maxA - n) with
    | processing code =>
      simp only [pollLoop, hs]
      refine ⟨ih.1, ?_⟩
      intro c hc
      rcases List.mem_cons.mp hc with rfl | hmem
      · exact ⟨maxA - n, rfl⟩
      · exact ih.2 c hmem
    | finished =>
      rw [hs] at hp
      simp [isProcessing] at hp
    | errorStatus s =>
      rw [hs] at hp
      simp [isProcessing] at hp
    | threw m =>
      rw [hs] at hp
      simp [isProcessing] at hp

/-- An Instagram oracle whose 30 status checks all report processing. -/
def igEnvStuck : IgEnv :=
  { head := fun _ => some "image/jpeg", createSingle := .ok "c1",
    status := fun _ => .processing "IN_PROGRESS", publishSingle := .ok "p1",
    createChild := fun _ => .ok "ch", createCarousel := .ok "car",
    publishCarousel := .ok "pc" }

/-- C4 counterexample: when every one of the 30 status checks completes
and reports a processing status the adapter does not proceed to publish:
it throws the timed-out error and the publish call never appears in the
trace, refuting the claim that exhausting the attempts while still
processing leads to a publish attempt. -/
theorem C4_counterexample :
    (postToInstagram igEnvStuck true (some "hi") ["https://cdn.example/a.jpg"]).2
      = .error { message := "Media processing timed out. Please try again with a smaller video file.",
                 status := 500, retryAfter := none } ∧
    IgCall.publishMedia ∉
      (postToInstagram igEnvStuck true (some "hi") ["https://cdn.example/a.jpg"]).1 := by decide

/-- C4 amended: when all 30 status checks complete and still report a
processing status, the adapter fails the post with the timed-out error
and never issues the publish call; the degraded proceed-anyway path runs
only when the final status check itself throws (or the container reports
ERROR, whose throw the same catch swallows). -/
theorem C4_amended (env : IgEnv) (content : Option String) (u ct cid : String)
    (hu : env.head u = some ct) (huI : strStartsWith ct "image/" = true)
    (hcs : env.createSingle = .ok cid)
    (hproc : ∀ a, isProcessing (env.status a) = true) :
    (postToInstagram env true content [u]).2
      = .error { message := "Media processing timed out. Please try again with a smaller video file.",
                 status := 500, retryAfter := none } ∧
    IgCall.publishMedia ∉ (postToInstagram env true content [u]).1 := by
  have hval : igValidate env.head [u] = ([.headCheck u], [(u, false)]) := by
    simp [igValidate, hu, huI]
  have hpoll := pollLoop_all_processing env.status hproc 30 30
  constructor
  · simp [postToInstagram, hval, hcs, hpoll.1, classifyInstagram, plainErr]
  · intro hmem
    simp only [postToInstagram, hval, hcs, hpoll.1] at hmem
    simp at hmem
    obtain ⟨a, ha⟩ := hpoll.2 _ hmem
    cases ha

/-- C4 amended witness at the concrete stuck-processing oracle. -/
theorem C4_amended_witness :
    (postToInstagram igEnvStuck true (some "hi") ["https://cdn.example/a.jpg"]).2
      = .error { message := "Media processing timed out. Please try again with a smaller video file.",
                 status := 500, retryAfter := none } ∧
    IgCall.publishMedia ∉
      (postToInstagram igEnvStuck true (some "hi") ["https://cdn.example/a.jpg"]).1 :=
  C4_amended igEnvStuck (some "hi") "https://cdn.example/a.jpg" "image/jpeg" "c1"
    (by decide) (by decide) (by decide) (fun _ => rfl)

theorem list_filterMap_none {α β : Type} (f : α → Option β) (l : List α)
    (h : ∀ a, f a = none) : l.filterMap f = [] := by
  induction l with
  | nil => rfl
  | cons a t ih => simp [List.filterMap_cons, h, ih]

/-- C8: when the Cloudinary upload fails for every file of a batch bound
for Instagram and the request body carries no media URLs, the
normalization helper returns the empty list (it never throws: every item
failure is caught inside it), and the Instagram route answers with the
at-least-one-media validation response without ever invoking
postToInstagram, hence without any container-creation call. -/
theorem C8_cloudinary_all_fail (imgU vidU : Nat → Option String) (nImg nVid : Nat)
    (content : Option String) (env : IgEnv)
    (hImg : ∀ j, imgU j = none) (hVid : ∀ j, vidU j = none) :
    convertFilesToCloudinaryUrls imgU nImg vidU nVid = [] ∧
    instagramRoute true true imgU nImg vidU nVid [] content env
      = .noMediaValidation := by
  have hconv : convertFilesToCloudinaryUrls imgU nImg vidU nVid = [] := by
    unfold convertFilesToCloudinaryUrls
    rw [list_filterMap_none _ _ fun j => by rw [hImg j]; rfl]
    rw [list_filterMap_none _ _ fun j => by rw [hVid j]; rfl]
    rfl
  refine ⟨hconv, ?_⟩
  by_cases hf : 0 < nImg ∨ 0 < nVid
  · simp [instagramRoute, hconv, hf]
  · simp [instagramRoute, hconv, hf]

/-- C8 witness: a batch of 2 images and 1 video whose uploads all fail. -/
theorem C8_cloudinary_all_fail_witness :
    convertFilesToCloudinaryUrls (fun _ => none) 2 (fun _ => none) 1 = [] ∧
    instagramRoute true true (fun _ => none) 2 (fun _ => none) 1 [] (some "hi") igEnvMixed
      = .noMediaValidation :=
  C8_cloudinary_all_fail (fun _ => none) (fun _ => none) 2 1 (some "hi") igEnvMixed
    (fun _ => rfl) (fun _ => rfl)

end Posting
